import Mathlib

/-!
# Geospatial Data Visualization Dashboard — verification development

Shallow embedding of the core of the dashboard (polygon drawing, rule-based
value-to-color classification, polygon store, recompute coordination) as found
in `src/app/page.tsx` and `src/components/InteractiveMap.tsx`, together with
theorems settling the specified properties.

JavaScript numbers are modelled as rationals (`ℚ`), extended with an explicit
`nan` constructor where NaN semantics matters (the classifier). Asynchronous
fetches are modelled by explicit task records tagged with the state their
closure captured, resolved by explicit events.
-/

namespace GeoDash

/-! ## Data model (src/app/page.tsx, lines 18–42) -/

/-- Embeds `interface ColorRule` (page.tsx lines 33–37): a half-open numeric interval
`[min, max)` with an associated color token. -/
structure ColorRule where
  min : ℚ
  max : ℚ
  color : String
deriving DecidableEq, Repr

/-- Embeds `interface DataSource` (page.tsx lines 26–31): a weather variable with its
ordered classification rules. -/
structure DataSource where
  id : String
  name : String
  unit : String
  colorRules : List ColorRule
deriving DecidableEq, Repr

/-- Embeds `interface Polygon` (page.tsx lines 18–24). The optional `value?: number`
field is an `Option ℚ` (`none` both for "absent" and for a JS `null`). -/
structure Polygon where
  id : String
  coordinates : List (ℚ × ℚ)
  color : String
  value : Option ℚ
  dataSource : String
deriving DecidableEq, Repr

/-- First entry of the `dataSources` array (page.tsx lines 56–67). -/
def temperatureSource : DataSource :=
  { id := "temperature_2m", name := "Temperature (2m)", unit := "Â°C",
    colorRules :=
      [ { min := -20, max := 0, color := "#3B82F6" },
        { min := 0, max := 10, color := "#06B6D4" },
        { min := 10, max := 20, color := "#10B981" },
        { min := 20, max := 30, color := "#F59E0B" },
        { min := 30, max := 50, color := "#EF4444" } ] }

/-- Second entry of the `dataSources` array (page.tsx lines 68–79). -/
def humiditySource : DataSource :=
  { id := "relative_humidity_2m", name := "Humidity (2m)", unit := "%",
    colorRules :=
      [ { min := 0, max := 20, color := "#DC2626" },
        { min := 20, max := 40, color := "#F59E0B" },
        { min := 40, max := 60, color := "#10B981" },
        { min := 60, max := 80, color := "#06B6D4" },
        { min := 80, max := 100, color := "#3B82F6" } ] }

/-- Third entry of the `dataSources` array (page.tsx lines 80–91). -/
def precipitationSource : DataSource :=
  { id := "precipitation", name := "Precipitation", unit := "mm",
    colorRules :=
      [ { min := 0, max := 0.1, color := "#F3F4F6" },
        { min := 0.1, max := 1, color := "#06B6D4" },
        { min := 1, max := 5, color := "#3B82F6" },
        { min := 5, max := 15, color := "#1D4ED8" },
        { min := 15, max := 50, color := "#1E1B4B" } ] }

/-- Fourth entry of the `dataSources` array (page.tsx lines 92–103). -/
def windSpeedSource : DataSource :=
  { id := "wind_speed_10m", name := "Wind Speed (10m)", unit := "km/h",
    colorRules :=
      [ { min := 0, max := 5, color := "#F3F4F6" },
        { min := 5, max := 15, color := "#10B981" },
        { min := 15, max := 30, color := "#F59E0B" },
        { min := 30, max := 50, color := "#EF4444" },
        { min := 50, max := 100, color := "#7C2D12" } ] }

/-- The fixed catalog of 4 variables, `dataSources` (page.tsx lines 55–104),
with the exact rule lists and color tokens of the source. -/
def dataSources : List DataSource :=
  [temperatureSource, humiditySource, precipitationSource, windSpeedSource]

/-! ## JavaScript numbers for the classifier

The classifier must be total over ordinary floating-point values including
NaN; every comparison against NaN is false. We model a JS number as either
NaN or a rational, with the JS comparison semantics. -/

/-- A JavaScript number as seen by the classifier: NaN or an ordinary value. -/
inductive JsNum where
  | nan : JsNum
  | num : ℚ → JsNum
deriving DecidableEq, Repr

/-- JS `value >= q`: false when `value` is NaN. -/
def JsNum.jsGe : JsNum → ℚ → Bool
  | JsNum.nan, _ => false
  | JsNum.num v, q => decide (q ≤ v)

/-- JS `value < q`: false when `value` is NaN. -/
def JsNum.jsLt : JsNum → ℚ → Bool
  | JsNum.nan, _ => false
  | JsNum.num v, q => decide (v < q)

/-- The loop guard of `getColorForValue` (page.tsx line 138):
`value >= rule.min && value < rule.max`. -/
def ruleMatches (value : JsNum) (r : ColorRule) : Bool :=
  value.jsGe r.min && value.jsLt r.max

/-- The `for (const rule of dataSource.colorRules)` scan of
`getColorForValue` (page.tsx lines 137–141): first matching rule wins. -/
def colorScan (value : JsNum) : List ColorRule → Option String
  | [] => none
  | r :: rs => if ruleMatches value r then some r.color else colorScan value rs

/-- Embeds `getColorForValue` (page.tsx lines 133–145). An unknown `dataSourceId`
yields the neutral color (line 135); an exhausted scan falls back to the last
rule's color (line 144). A source with an empty rule list would crash in JS at
line 144 (`colorRules[-1].color`); that branch is unreachable for the fixed
catalog, where every rule list has 5 entries. -/
def getColorForValue (value : JsNum) (dataSourceId : String) : String :=
  match dataSources.find? (fun ds => ds.id == dataSourceId) with
  | none => "#9CA3AF"
  | some ds =>
    match colorScan value ds.colorRules with
    | some c => c
    | none =>
      match ds.colorRules.getLast? with
      | some r => r.color
      | none => "#9CA3AF"

/-! ## Centroid (page.tsx lines 149–154 and 189–192)

Both `updatePolygonColors` and `handlePolygonComplete` compute the query point
of a polygon as `reduce`-sums of the two components divided by the length. -/

/-- The centroid computation of page.tsx lines 149–154 / 189–192:
`latSum = coords.reduce((sum, c) => sum + c[0], 0)` (and likewise for
longitude), then divide by the number of coordinates. -/
def centroidOfCoords (coords : List (ℚ × ℚ)) : ℚ × ℚ :=
  let latSum := coords.foldl (fun sum c => sum + c.1) 0
  let lonSum := coords.foldl (fun sum c => sum + c.2) 0
  (latSum / coords.length, lonSum / coords.length)

/-- The spec's wording of the centroid, for comparison with the code's
computation: the arithmetic mean of the coordinate pairs (mean of latitudes,
mean of longitudes). -/
def specMeanCentroid (coords : List (ℚ × ℚ)) : ℚ × ℚ :=
  ((coords.map Prod.fst).sum / coords.length,
   (coords.map Prod.snd).sum / coords.length)

/-! ## The weather fetch (page.tsx lines 106–131) -/

/-- Line 109: `const clampedLat = Math.max(-90, Math.min(90, lat));`. -/
def clampedLatOf (lat : ℚ) : ℚ := max (-90) (min 90 lat)

/-- The possible outcomes of the HTTP request and response decoding, as
distinguished by the source: the `fetch` rejects (network error), the response
is not ok (line 117), the decoded payload has no series under the selected key
(`!values`, line 122), or a series of hourly samples arrives, each sample a
number or a JS `null`. -/
inductive FetchOutcome where
  | networkError : FetchOutcome
  | httpError : FetchOutcome
  | malformed : FetchOutcome
  | series : List (Option ℚ) → FetchOutcome
deriving DecidableEq, Repr

/-- The response processing of `fetchWeatherData` (page.tsx lines 117–126),
as a function of the request outcome. `throw` on a non-ok response and any
rejection land in the `catch` (lines 127–130), which returns `null`; an absent
or empty series returns `null` (line 122); otherwise the valid (non-null)
samples are averaged with `reduce((a, b) => a + b, 0) / length` (lines
125–126), `null` if no valid sample remains.

Note: in the source as committed this code is unreachable — see
`fetchWeatherData` below — but it is the verbatim response-handling text of
the `try` block. -/
def processFetchOutcome (o : FetchOutcome) : Option ℚ :=
  match o with
  | FetchOutcome.networkError => none
  | FetchOutcome.httpError => none
  | FetchOutcome.malformed => none
  | FetchOutcome.series values =>
    if values.length = 0 then none
    else
      let validValues := values.filterMap id
      if validValues.length > 0
      then some (validValues.foldl (fun a b => a + b) 0 / validValues.length)
      else none

/-- Embeds `fetchWeatherData` (page.tsx lines 106–131) as it actually executes. The
`try` block computes `clampedLat` (line 109) and the date strings, then
evaluates the request URL template literal (line 114), which references the
identifier `clampedLon` — declared nowhere in the file (line 109 declares only
`clampedLat`). Evaluating the template therefore throws a `ReferenceError`
before any request is issued; control jumps to the `catch` (lines 127–130),
which logs and returns `null`. So every call returns `null`, whatever the
network would have answered. -/
def fetchWeatherData (lat : ℚ) (lon : ℚ) (outcome : FetchOutcome) : Option ℚ :=
  let _clampedLat := clampedLatOf lat
  let _ := lon
  let _ := outcome
  none

/-- Line 157 / line 195: `value !== null ? getColorForValue(value, selectedDataSource) : '#9CA3AF'`. -/
def colorOfFetched (value : Option ℚ) (selectedDataSource : String) : String :=
  match value with
  | some v => getColorForValue (JsNum.num v) selectedDataSource
  | none => "#9CA3AF"

/-! ## Polygon store: commit and remove (page.tsx lines 177–206) -/

/-- Line 179: `` id: `polygon-${Date.now()}` ``, with the current millisecond
timestamp passed in explicitly. -/
def mkPolygonId (now : ℕ) : String := "polygon-" ++ Nat.repr now

/-- The synchronous part of `handlePolygonComplete` (page.tsx lines 177–186):
build the new polygon with no value and the neutral color, append it to the
collection. Returns the new collection together with the identifier bound to
`newPolygon.id`, which the rest of the handler uses to address the polygon. -/
def handlePolygonComplete (polys : List Polygon) (selectedDataSource : String)
    (now : ℕ) (coordinates : List (ℚ × ℚ)) : List Polygon × String :=
  let newPolygon : Polygon :=
    { id := mkPolygonId now
      coordinates := coordinates
      color := "#9CA3AF"
      value := none
      dataSource := selectedDataSource }
  (polys ++ [newPolygon], newPolygon.id)

/-- A sequence of commits: fold `handlePolygonComplete` over a batch of
(timestamp, coordinates) pairs. -/
def commitAll (polys : List Polygon) (selectedDataSource : String) :
    List (ℕ × List (ℚ × ℚ)) → List Polygon
  | [] => polys
  | (t, cs) :: rest =>
    commitAll (handlePolygonComplete polys selectedDataSource t cs).1
      selectedDataSource rest

/-- Embeds `handleDeletePolygon` (page.tsx lines 204–206):
`setPolygons(prev => prev.filter(p => p.id !== polygonId))`. -/
def handleDeletePolygon (polys : List Polygon) (polygonId : String) : List Polygon :=
  polys.filter (fun p => p.id ≠ polygonId)

/-! ## Drawing state machine (src/components/InteractiveMap.tsx, lines 63–153)

The ephemeral drawing session: the `drawingPoints` state, the marker layers in
`drawingMarkersRef` (modelled by the list of the marker positions), and the
preview polygon layer in `previewPolygonRef` (modelled by the coordinate list
it was built from). `isDrawing` is the drawing-mode flag owned by the page. -/

/-- The drawing session state: `isDrawing`, `drawingPoints`,
`drawingMarkersRef` (marker positions) and `previewPolygonRef` (coordinates of
the preview layer, if one is on the map). -/
structure DrawingState where
  isDrawing : Bool
  drawingPoints : List (ℚ × ℚ)
  markers : List (ℚ × ℚ)
  preview : Option (List (ℚ × ℚ))
deriving DecidableEq, Repr

/-- Embeds `handleMapClick` (InteractiveMap.tsx lines 68–107): ignore the click when
not drawing (line 69); compute `newPoints` (line 72) and reject the click when
it would exceed 12 points (lines 75–77); otherwise store the points, add a
marker (lines 82–91), and (re)build the preview polygon once at least 3 points
exist (lines 94–106). -/
def handleMapClick (s : DrawingState) (pt : ℚ × ℚ) : DrawingState :=
  if !s.isDrawing then s
  else
    let newPoints := s.drawingPoints ++ [pt]
    if newPoints.length > 12 then s
    else
      { s with
        drawingPoints := newPoints
        markers := s.markers ++ [pt]
        preview := if newPoints.length ≥ 3 then some newPoints else s.preview }

/-- Embeds `handleRightClick` (InteractiveMap.tsx lines 109–126): rejected unless
drawing with at least 3 points (line 110); otherwise emit `drawingPoints` to
`onPolygonComplete` (line 115) and clear all ephemeral state (lines 118–125).
Returns the new session state and the emitted coordinate sequence, if any. -/
def handleRightClick (s : DrawingState) : DrawingState × Option (List (ℚ × ℚ)) :=
  if !s.isDrawing || s.drawingPoints.length < 3 then (s, none)
  else
    ({ s with drawingPoints := [], markers := [], preview := none },
     some s.drawingPoints)

/-- The complete "finish polygon" interaction: `handleRightClick` on the map,
whose emission invokes the page's `handlePolygonComplete` (page.tsx lines
177–202), which appends the polygon to the store and leaves drawing mode
(`setIsDrawing(false)`, line 186). Returns the session state and the store. -/
def completeDrawing (s : DrawingState) (store : List Polygon)
    (selectedDataSource : String) (now : ℕ) : DrawingState × List Polygon :=
  match handleRightClick s with
  | (s1, none) => (s1, store)
  | (s1, some coords) =>
    ({ s1 with isDrawing := false },
     (handlePolygonComplete store selectedDataSource now coords).1)

/-! ## Recompute coordination (page.tsx lines 147–175)

`updatePolygonColors` is an async closure over the `polygons`, `timeRange` and
`selectedDataSource` state of the render that created it; the effect at lines
171–175 invokes it whenever the selected variable or the analysis range
changes and at least one polygon exists. The `Promise.all` resolves after
every per-polygon fetch and then performs one `setPolygons(updatedPolygons)`
(line 168), unconditionally replacing the collection with values derived from
the captured state. We model each invocation as a task record carrying the
captured state, resolved by an explicit event; the value each per-polygon
fetch resolves with is supplied by an oracle standing for the external weather
source. -/

/-- The selection a recompute is implicitly issued under: `selectedDataSource`
plus the analysis `timeRange` (hour timestamps). -/
structure Selection where
  dataSource : String
  rangeStart : ℤ
  rangeEnd : ℤ
deriving DecidableEq, Repr

/-- The external weather source: what the per-polygon fetch for a given
centroid under a given selection resolves with (`none` = `null`). -/
def Oracle : Type := (ℚ × ℚ) → Selection → Option ℚ

/-- One in-flight `updatePolygonColors()` invocation: the `polygons` and
selection state its closure captured at issue time. -/
structure RecomputeTask where
  capturedPolygons : List Polygon
  capturedSelection : Selection
deriving DecidableEq, Repr

/-- The body of `updatePolygonColors` (page.tsx lines 148–166) at resolution
time: map every captured polygon to its centroid, fetch, classify (line 157),
and stamp the captured `selectedDataSource` (line 163). -/
def resolveRecompute (oracle : Oracle) (t : RecomputeTask) : List Polygon :=
  t.capturedPolygons.map (fun polygon =>
    let c := centroidOfCoords polygon.coordinates
    let value := oracle c t.capturedSelection
    let color := colorOfFetched value t.capturedSelection.dataSource
    { polygon with
      value := value
      color := color
      dataSource := t.capturedSelection.dataSource })

/-- The dashboard state relevant to recompute: the committed polygons, the
active selection, and the in-flight `updatePolygonColors` invocations in issue
order. -/
structure DashState where
  polygons : List Polygon
  selection : Selection
  pending : List RecomputeTask
deriving DecidableEq, Repr

/-- The recompute-relevant events: a selection change (variable or range),
which re-runs the effect at page.tsx lines 171–175 and issues a recompute when
polygons exist, and the resolution of the `i`-th in-flight recompute, which
performs its `setPolygons` (line 168). -/
inductive DashEvent where
  | setSelection : Selection → DashEvent
  | taskResolves : ℕ → DashEvent
deriving DecidableEq, Repr

/-- One event step of the dashboard. `setSelection` updates the selection and,
if `polygons.length > 0` (line 172), issues an `updatePolygonColors` task
capturing the current polygons and the new selection. `taskResolves i` applies
the `i`-th pending task's `setPolygons(updatedPolygons)` unconditionally, as
the source does (line 168) — no staleness check is performed. -/
def dashStep (oracle : Oracle) (s : DashState) : DashEvent → DashState
  | DashEvent.setSelection sel =>
    let s1 : DashState := { s with selection := sel }
    if s1.polygons.length > 0 then
      { s1 with pending := s1.pending ++ [⟨s1.polygons, sel⟩] }
    else s1
  | DashEvent.taskResolves i =>
    match s.pending[i]? with
    | none => s
    | some t =>
      { s with
        polygons := resolveRecompute oracle t
        pending := s.pending.eraseIdx i }

/-- Run a sequence of dashboard events. -/
def dashRun (oracle : Oracle) (s : DashState) (events : List DashEvent) : DashState :=
  events.foldl (dashStep oracle) s

/-! ## Decimal representation

`mkPolygonId` renders the millisecond timestamp in decimal. To reason about
identifier collisions we need that distinct naturals render as distinct
strings. Core's `Nat.repr` goes through the fuel-based `Nat.toDigitsCore`; we
relate it to a structurally recursive decimal renderer and prove that renderer
injective. -/

/-- Structural decimal renderer: the digit characters of `n`, most significant
first. -/
def decChars (n : ℕ) : List Char :=
  if _h : n < 10 then [Nat.digitChar n]
  else decChars (n / 10) ++ [Nat.digitChar (n % 10)]
decreasing_by exact Nat.div_lt_self (by omega) (by omega)

theorem decChars_ne_nil (n : ℕ) : decChars n ≠ [] := by
  rw [decChars]
  split <;> simp

theorem toDigitsCore_eq_decChars :
    ∀ n : ℕ, ∀ fuel : ℕ, ∀ ds : List Char, n < fuel →
      Nat.toDigitsCore 10 fuel n ds = decChars n ++ ds := by
  intro n
  induction n using Nat.strong_induction_on with
  | _ n ih =>
    intro fuel ds hfuel
    match fuel with
    | f + 1 =>
      rw [Nat.toDigitsCore]
      by_cases h0 : n / 10 = 0
      · have hn : n < 10 := by omega
        have hmod : n % 10 = n := Nat.mod_eq_of_lt hn
        simp only [h0, if_pos rfl, hmod]
        rw [decChars]
        simp [hn]
      · have hdiv : n / 10 < n := Nat.div_lt_self (by omega) (by omega)
        have hfe : n / 10 < f := by omega
        simp only [if_neg h0]
        rw [ih (n / 10) hdiv f (Nat.digitChar (n % 10) :: ds) hfe]
        conv_rhs => rw [decChars]
        have hge : ¬ n < 10 := by omega
        simp [hge]

theorem digitChar_inj_lt10 :
    ∀ a < 10, ∀ b < 10, Nat.digitChar a = Nat.digitChar b → a = b := by
  decide

theorem decChars_length_pos (n : ℕ) : 0 < (decChars n).length := by
  cases h : decChars n with
  | nil => exact absurd h (decChars_ne_nil n)
  | cons c cs => simp

theorem decChars_lt10 (n : ℕ) (h : n < 10) : decChars n = [Nat.digitChar n] := by
  rw [decChars]
  exact dif_pos h

theorem decChars_ge10 (n : ℕ) (h : ¬ n < 10) :
    decChars n = decChars (n / 10) ++ [Nat.digitChar (n % 10)] := by
  rw [decChars]
  exact dif_neg h

theorem decChars_inj : ∀ m n : ℕ, decChars m = decChars n → m = n := by
  intro m
  induction m using Nat.strong_induction_on with
  | _ m ih =>
    intro n h
    by_cases hm : m < 10 <;> by_cases hn : n < 10
    · rw [decChars_lt10 m hm, decChars_lt10 n hn] at h
      have := List.head_eq_of_cons_eq h
      exact digitChar_inj_lt10 m hm n hn this
    · exfalso
      rw [decChars_lt10 m hm, decChars_ge10 n hn] at h
      have hlen := congrArg List.length h
      have hpos := decChars_length_pos (n / 10)
      simp only [List.length_append, List.length_cons, List.length_nil] at hlen
      omega
    · exfalso
      rw [decChars_ge10 m hm, decChars_lt10 n hn] at h
      have hlen := congrArg List.length h
      have hpos := decChars_length_pos (m / 10)
      simp only [List.length_append, List.length_cons, List.length_nil] at hlen
      omega
    · rw [decChars_ge10 m hm, decChars_ge10 n hn] at h
      have hrev := congrArg List.reverse h
      simp at hrev
      obtain ⟨hdig, hrest⟩ := hrev
      have hdigit : m % 10 = n % 10 :=
        digitChar_inj_lt10 (m % 10) (Nat.mod_lt m (by omega)) (n % 10)
          (Nat.mod_lt n (by omega)) hdig
      have hdivs : m / 10 = n / 10 := by
        apply ih (m / 10) (Nat.div_lt_self (by omega) (by omega))
        have := congrArg List.reverse hrest
        simpa using this
      omega

theorem natRepr_inj : ∀ m n : ℕ, Nat.repr m = Nat.repr n → m = n := by
  intro m n h
  unfold Nat.repr Nat.toDigits at h
  rw [toDigitsCore_eq_decChars m (m + 1) [] (by omega),
      toDigitsCore_eq_decChars n (n + 1) [] (by omega)] at h
  simp [List.asString, String.ext_iff] at h
  exact decChars_inj m n (by simpa using h)

theorem mkPolygonId_inj : ∀ m n : ℕ, mkPolygonId m = mkPolygonId n → m = n := by
  intro m n h
  unfold mkPolygonId at h
  have hd := congrArg String.data h
  simp only [String.data_append] at hd
  exact natRepr_inj m n (String.ext (List.append_cancel_left hd))

/-! ## Helper lemmas -/

theorem foldl_add_component (f : ℚ × ℚ → ℚ) (l : List (ℚ × ℚ)) :
    ∀ a : ℚ, l.foldl (fun sum c => sum + f c) a = a + (l.map f).sum := by
  induction l with
  | nil => intro a; simp
  | cons x xs ih => intro a; simp [ih, add_assoc]

theorem foldl_add_eq_sum (l : List ℚ) : ∀ a : ℚ, l.foldl (fun x y => x + y) a = a + l.sum := by
  induction l with
  | nil => intro a; simp
  | cons x xs ih => intro a; simp [ih, add_assoc]

/-- The rule scan either stops at the first matching rule (the list splits as
non-matching rules, then the matching rule) or exhausts the list with no rule
matching. -/
theorem colorScan_cases (value : JsNum) :
    ∀ rules : List ColorRule,
      (∃ ps r ss, rules = ps ++ r :: ss ∧
        (∀ p ∈ ps, ruleMatches value p = false) ∧
        ruleMatches value r = true ∧
        colorScan value rules = some r.color)
      ∨ ((∀ r ∈ rules, ruleMatches value r = false) ∧ colorScan value rules = none) := by
  intro rules
  induction rules with
  | nil => right; exact ⟨by simp, rfl⟩
  | cons r rs ih =>
    by_cases h : ruleMatches value r
    · left
      exact ⟨[], r, rs, by simp, by simp, h, by simp [colorScan, h]⟩
    · have hfalse : ruleMatches value r = false := by simpa using h
      rcases ih with ⟨ps, m, ss, hsplit, hps, hm, hscan⟩ | ⟨hall, hscan⟩
      · left
        refine ⟨r :: ps, m, ss, by simp [hsplit], ?_, hm, ?_⟩
        · intro p hp
          rcases List.mem_cons.mp hp with rfl | hp2
          · exact hfalse
          · exact hps p hp2
        · simp [colorScan, hfalse, hscan]
      · right
        refine ⟨?_, by simp [colorScan, hfalse, hscan]⟩
        intro x hx
        rcases List.mem_cons.mp hx with rfl | hx2
        · exact hfalse
        · exact hall x hx2

/-- Classifier behavior for a data source that the catalog lookup resolves to
itself and whose rule list has a known last rule. -/
theorem getColorForValue_of_find (v : JsNum) (ds : DataSource)
    (hfind : dataSources.find? (fun x => x.id == ds.id) = some ds)
    (lastRule : ColorRule) (hlast : ds.colorRules.getLast? = some lastRule) :
    (∃ ps r ss, ds.colorRules = ps ++ r :: ss ∧
        (∀ p ∈ ps, ruleMatches v p = false) ∧
        ruleMatches v r = true ∧
        getColorForValue v ds.id = r.color)
    ∨ ((∀ r ∈ ds.colorRules, ruleMatches v r = false) ∧
        ∃ last, ds.colorRules.getLast? = some last ∧
          getColorForValue v ds.id = last.color) := by
  rcases colorScan_cases v ds.colorRules with ⟨ps, r, ss, h1, h2, h3, h4⟩ | ⟨h1, h2⟩
  · left
    exact ⟨ps, r, ss, h1, h2, h3, by simp [getColorForValue, hfind, h4]⟩
  · right
    exact ⟨h1, lastRule, hlast, by simp [getColorForValue, hfind, h2, hlast]⟩

/-! ## Claim theorems: classifier -/

/-- C3: for every numeric value `v` (NaN included) and every variable of the
catalog, `getColorForValue` returns the color of the first rule with
`rule.min <= v < rule.max` (the preceding rules all failing); when no rule
matches — `v` below the first minimum, in a gap, at or beyond the last
maximum, or NaN, for which every comparison is false — it returns the color
of the last rule of the variable's list. -/
theorem getColorForValue_first_match_or_last (v : JsNum) (ds : DataSource)
    (hds : ds ∈ dataSources) :
    (∃ ps r ss, ds.colorRules = ps ++ r :: ss ∧
        (∀ p ∈ ps, ruleMatches v p = false) ∧
        ruleMatches v r = true ∧
        getColorForValue v ds.id = r.color)
    ∨ ((∀ r ∈ ds.colorRules, ruleMatches v r = false) ∧
        ∃ last, ds.colorRules.getLast? = some last ∧
          getColorForValue v ds.id = last.color) := by
  simp only [dataSources, List.mem_cons, List.not_mem_nil, or_false] at hds
  rcases hds with rfl | rfl | rfl | rfl
  · exact getColorForValue_of_find v temperatureSource rfl
      { min := 30, max := 50, color := "#EF4444" } rfl
  · exact getColorForValue_of_find v humiditySource rfl
      { min := 80, max := 100, color := "#3B82F6" } rfl
  · exact getColorForValue_of_find v precipitationSource rfl
      { min := 15, max := 50, color := "#1E1B4B" } rfl
  · exact getColorForValue_of_find v windSpeedSource rfl
      { min := 50, max := 100, color := "#7C2D12" } rfl

/-- Witness for C3: the theorem instantiated at value 5 and the temperature
variable; 5 falls in the second temperature rule `[0, 10)`. -/
theorem getColorForValue_first_match_or_last_witness :
    temperatureSource ∈ dataSources ∧
    ((∃ ps r ss, temperatureSource.colorRules = ps ++ r :: ss ∧
        (∀ p ∈ ps, ruleMatches (JsNum.num 5) p = false) ∧
        ruleMatches (JsNum.num 5) r = true ∧
        getColorForValue (JsNum.num 5) temperatureSource.id = r.color)
    ∨ ((∀ r ∈ temperatureSource.colorRules, ruleMatches (JsNum.num 5) r = false) ∧
        ∃ last, temperatureSource.colorRules.getLast? = some last ∧
          getColorForValue (JsNum.num 5) temperatureSource.id = last.color)) :=
  ⟨by decide,
   getColorForValue_first_match_or_last (JsNum.num 5) temperatureSource (by decide)⟩

/-- C10: calling the classifier with a variable identifier that is not in the
fixed catalog returns the neutral color `#9CA3AF` for every value, instead of
failing: classification is total in the variable identifier. -/
theorem getColorForValue_unknown_source (v : JsNum) (dataSourceId : String)
    (h : ∀ ds ∈ dataSources, ds.id ≠ dataSourceId) :
    getColorForValue v dataSourceId = "#9CA3AF" := by
  have hfind : dataSources.find? (fun x => x.id == dataSourceId) = none := by
    rw [List.find?_eq_none]
    intro x hx
    simpa using h x hx
  simp [getColorForValue, hfind]

/-- Witness for C10: `"pressure"` is not a catalog identifier, and classifying
any value under it yields the neutral color. -/
theorem getColorForValue_unknown_source_witness :
    (∀ ds ∈ dataSources, ds.id ≠ "pressure") ∧
    getColorForValue (JsNum.num 5) "pressure" = "#9CA3AF" :=
  ⟨by decide, getColorForValue_unknown_source (JsNum.num 5) "pressure" (by decide)⟩

/-! ## Claim theorems: centroid -/

/-- C8: for every non-empty coordinate sequence, the centroid the code uses as
the data-query point (the `reduce`-sum of each component divided by the count)
is the arithmetic mean of the coordinate pairs. -/
theorem centroidOfCoords_eq_mean (coords : List (ℚ × ℚ)) (_h : coords ≠ []) :
    centroidOfCoords coords = specMeanCentroid coords := by
  unfold centroidOfCoords specMeanCentroid
  simp [foldl_add_component]

/-- Witness for C8: for the square `[(0,0),(0,2),(2,2),(2,0)]` the computed
centroid is `(1,1)`. -/
theorem centroidOfCoords_eq_mean_witness :
    ([((0:ℚ),(0:ℚ)), (0,2), (2,2), (2,0)] ≠ ([] : List (ℚ × ℚ))) ∧
    centroidOfCoords [(0,0), (0,2), (2,2), (2,0)] = (1,1) := by
  refine ⟨by decide, ?_⟩
  rw [centroidOfCoords_eq_mean [(0,0), (0,2), (2,2), (2,0)] (by decide)]
  simp [specMeanCentroid]
  norm_num

/-! ## Claim theorems: drawing state machine -/

/-- C5: when the capture session already holds 12 points, a further map click
is a complete no-op — the state (point count, markers, preview) is unchanged
and nothing is auto-completed. -/
theorem handleMapClick_rejects_beyond_12 (s : DrawingState) (pt : ℚ × ℚ)
    (hdraw : s.isDrawing = true) (hfull : s.drawingPoints.length = 12) :
    handleMapClick s pt = s := by
  unfold handleMapClick
  simp [hdraw, hfull]

/-- A 12-point capture session, for exercising the cap. -/
def twelvePointState : DrawingState :=
  { isDrawing := true
    drawingPoints := [(0,0),(0,1),(0,2),(0,3),(1,0),(1,1),(1,2),(1,3),(2,0),(2,1),(2,2),(2,3)]
    markers := [(0,0),(0,1),(0,2),(0,3),(1,0),(1,1),(1,2),(1,3),(2,0),(2,1),(2,2),(2,3)]
    preview := some [(0,0),(0,1),(0,2),(0,3),(1,0),(1,1),(1,2),(1,3),(2,0),(2,1),(2,2),(2,3)] }

/-- Witness for C5: clicking a 13th point onto a concrete 12-point session
leaves it unchanged. -/
theorem handleMapClick_rejects_beyond_12_witness :
    twelvePointState.isDrawing = true ∧
    twelvePointState.drawingPoints.length = 12 ∧
    handleMapClick twelvePointState (5, 5) = twelvePointState :=
  ⟨rfl, by decide, handleMapClick_rejects_beyond_12 twelvePointState (5, 5) rfl (by decide)⟩

/-- C6: completing with fewer than 3 captured points is rejected — no polygon
is emitted and the session state is untouched; completing with exactly 3
points appends to the store a polygon whose coordinates are exactly those 3
points in order, and the machine returns to Idle with all ephemeral state
cleared. -/
theorem completeDrawing_spec (s : DrawingState) (store : List Polygon)
    (sel : String) (now : ℕ) (hdraw : s.isDrawing = true) :
    (s.drawingPoints.length < 3 → completeDrawing s store sel now = (s, store)) ∧
    (∀ p1 p2 p3 : ℚ × ℚ, s.drawingPoints = [p1, p2, p3] →
      ∃ q : Polygon,
        (completeDrawing s store sel now).2 = store ++ [q] ∧
        q.coordinates = [p1, p2, p3] ∧
        (completeDrawing s store sel now).1.isDrawing = false ∧
        (completeDrawing s store sel now).1.drawingPoints = [] ∧
        (completeDrawing s store sel now).1.markers = [] ∧
        (completeDrawing s store sel now).1.preview = none) := by
  constructor
  · intro hlt
    unfold completeDrawing handleRightClick
    simp [hdraw, hlt]
  · intro p1 p2 p3 hpts
    refine ⟨{ id := mkPolygonId now, coordinates := [p1, p2, p3], color := "#9CA3AF",
              value := none, dataSource := sel }, ?_, rfl, ?_, ?_, ?_, ?_⟩ <;>
      simp [completeDrawing, handleRightClick, handlePolygonComplete, hdraw, hpts]

/-- A 3-point capture session, for exercising completion. -/
def threePointState : DrawingState :=
  { isDrawing := true
    drawingPoints := [(0,0),(0,1),(1,0)]
    markers := [(0,0),(0,1),(1,0)]
    preview := some [(0,0),(0,1),(1,0)] }

/-- Witness for C6: completing a concrete 3-point session empties the session,
leaves drawing mode, and appends a polygon carrying those 3 points. -/
theorem completeDrawing_spec_witness :
    threePointState.isDrawing = true ∧
    (completeDrawing threePointState [] "temperature_2m" 7).1.isDrawing = false ∧
    (completeDrawing threePointState [] "temperature_2m" 7).1.drawingPoints = [] ∧
    ∃ q : Polygon,
      (completeDrawing threePointState [] "temperature_2m" 7).2 = [] ++ [q] ∧
      q.coordinates = [(0,0),(0,1),(1,0)] := by
  have h := completeDrawing_spec threePointState [] "temperature_2m" 7 rfl
  obtain ⟨q, hq1, hq2, hq3, hq4, hq5, hq6⟩ := h.2 (0,0) (0,1) (1,0) rfl
  exact ⟨rfl, hq3, hq4, q, hq1, hq2⟩

/-! ## Claim theorems: polygon store -/

/-- A committed demo polygon, for exercising deletion. -/
def demoPolygon : Polygon :=
  { id := "polygon-1", coordinates := [(0,0),(0,1),(1,0)],
    color := "#9CA3AF", value := none, dataSource := "temperature_2m" }

/-- C7: `handleDeletePolygon` leaves the collection unchanged when no polygon
has the identifier; when some does, it removes exactly the polygons with that
identifier, preserving every other polygon and their order; and a commit on an
empty store followed by deletion with the returned identifier yields the empty
collection. -/
theorem handleDeletePolygon_spec (polys : List Polygon) (polygonId : String) :
    ((∀ p ∈ polys, p.id ≠ polygonId) → handleDeletePolygon polys polygonId = polys) ∧
    (∀ p ∈ handleDeletePolygon polys polygonId, p.id ≠ polygonId) ∧
    List.Sublist (handleDeletePolygon polys polygonId) polys ∧
    (∀ p ∈ polys, p.id ≠ polygonId → p ∈ handleDeletePolygon polys polygonId) ∧
    (∀ (sel : String) (now : ℕ) (coords : List (ℚ × ℚ)),
      handleDeletePolygon (handlePolygonComplete [] sel now coords).1
        (handlePolygonComplete [] sel now coords).2 = []) := by
  refine ⟨?_, ?_, ?_, ?_, ?_⟩
  · intro h
    apply List.filter_eq_self.mpr
    intro a ha
    simpa using h a ha
  · intro p hp
    have := List.of_mem_filter hp
    simpa using this
  · exact List.filter_sublist _
  · intro p hp hne
    exact List.mem_filter.mpr ⟨hp, by simpa using hne⟩
  · intro sel now coords
    simp [handlePolygonComplete, handleDeletePolygon]

/-- Witness for C7: deleting an unknown identifier from a one-polygon store
changes nothing, and commit-then-delete on the empty store is empty. -/
theorem handleDeletePolygon_spec_witness :
    handleDeletePolygon [demoPolygon] "polygon-unknown" = [demoPolygon] ∧
    handleDeletePolygon
        (handlePolygonComplete [] "temperature_2m" 7 [(0,0),(0,1),(1,0)]).1
        (handlePolygonComplete [] "temperature_2m" 7 [(0,0),(0,1),(1,0)]).2 = [] :=
  ⟨(handleDeletePolygon_spec [demoPolygon] "polygon-unknown").1 (by decide),
   (handleDeletePolygon_spec [] "polygon-unknown").2.2.2.2
     "temperature_2m" 7 [(0,0),(0,1),(1,0)]⟩

/-- C4 counterexample: the identifier is derived from `Date.now()` alone, so
two commits carrying the same millisecond timestamp assign the same
identifier — the second identifier equals the identifier of a polygon already
in the store, refuting unconditional uniqueness. -/
theorem handlePolygonComplete_id_collision :
    (handlePolygonComplete
        (handlePolygonComplete [] "temperature_2m" 5 [(0,0),(0,1),(1,0)]).1
        "relative_humidity_2m" 5 [(0,0),(0,2),(2,0)]).2
      = (handlePolygonComplete [] "temperature_2m" 5 [(0,0),(0,1),(1,0)]).2 ∧
    ((handlePolygonComplete [] "temperature_2m" 5 [(0,0),(0,1),(1,0)]).1.map
        Polygon.id).contains
      (handlePolygonComplete
        (handlePolygonComplete [] "temperature_2m" 5 [(0,0),(0,1),(1,0)]).1
        "relative_humidity_2m" 5 [(0,0),(0,2),(2,0)]).2 = true := by
  exact ⟨rfl, rfl⟩

theorem commitAll_map_id (sel : String) :
    ∀ (batch : List (ℕ × List (ℚ × ℚ))) (polys : List Polygon),
      (commitAll polys sel batch).map Polygon.id
        = polys.map Polygon.id ++ batch.map (fun b => mkPolygonId b.1) := by
  intro batch
  induction batch with
  | nil => intro polys; simp [commitAll]
  | cons b rest ih =>
    intro polys
    cases b with
    | mk t cs => simp [commitAll, handlePolygonComplete, ih]

/-- C4 (amended): every commit creates the polygon with value absent and the
neutral color, appends it at the end of the collection, and yields the
identifier `polygon-` followed by the commit's millisecond timestamp; in any
sequence of commits whose timestamps are pairwise distinct, the assigned
identifiers are pairwise distinct. (Unconditional uniqueness fails: see the
counterexample with two commits in the same millisecond.) -/
theorem handlePolygonComplete_spec (polys : List Polygon) (sel : String)
    (now : ℕ) (coords : List (ℚ × ℚ)) :
    (∃ q : Polygon,
      (handlePolygonComplete polys sel now coords).1 = polys ++ [q] ∧
      q.id = (handlePolygonComplete polys sel now coords).2 ∧
      q.id = mkPolygonId now ∧
      q.value = none ∧
      q.color = "#9CA3AF" ∧
      q.coordinates = coords) ∧
    (∀ batch : List (ℕ × List (ℚ × ℚ)), (batch.map Prod.fst).Nodup →
      ((commitAll [] sel batch).map Polygon.id).Nodup) := by
  constructor
  · exact ⟨_, rfl, rfl, rfl, rfl, rfl, rfl⟩
  · intro batch hnodup
    rw [commitAll_map_id]
    simp only [List.map_nil, List.nil_append]
    have hcomp : batch.map (fun b => mkPolygonId b.1)
        = (batch.map Prod.fst).map mkPolygonId := by
      simp [List.map_map, Function.comp]
    rw [hcomp]
    exact hnodup.map (fun a b hab => mkPolygonId_inj a b hab)

/-- Witness for C4: two commits at the distinct timestamps 1 and 2 yield
distinct identifiers, and a commit appends a neutral, value-less polygon. -/
theorem handlePolygonComplete_spec_witness :
    (([(1, [((0:ℚ),(0:ℚ)),(0,1),(1,0)]), (2, [((0:ℚ),(0:ℚ)),(0,2),(2,0)])].map
        (Prod.fst (α := ℕ) (β := List (ℚ × ℚ)))).Nodup) ∧
    ((commitAll [] "temperature_2m"
        [(1, [(0,0),(0,1),(1,0)]), (2, [(0,0),(0,2),(2,0)])]).map Polygon.id).Nodup ∧
    ∃ q : Polygon,
      (handlePolygonComplete [] "temperature_2m" 1 [(0,0),(0,1),(1,0)]).1 = [] ++ [q] ∧
      q.value = none ∧ q.color = "#9CA3AF" := by
  have h := handlePolygonComplete_spec [] "temperature_2m" 1 [(0,0),(0,1),(1,0)]
  obtain ⟨q, hq1, _, _, hq4, hq5, _⟩ := h.1
  exact ⟨by decide,
    h.2 [(1, [(0,0),(0,1),(1,0)]), (2, [(0,0),(0,2),(2,0)])] (by decide),
    q, hq1, hq4, hq5⟩

/-! ## Claim theorems: fetch normalization and averaging -/

/-- C9: every fetch failure — network error, non-success response, malformed
payload, empty series — is normalized to an absent value (and the absent value
is rendered with the neutral color); a successfully received series is reduced
to the average of its samples ignoring null samples, absent when no valid
sample remains; and a recompute whose fetches all resolve absent leaves every
polygon with an absent value and the neutral color. The processing is a total
function: no failure escapes as an exception. -/
theorem processFetchOutcome_spec (sel : String) :
    (processFetchOutcome FetchOutcome.networkError = none ∧
     processFetchOutcome FetchOutcome.httpError = none ∧
     processFetchOutcome FetchOutcome.malformed = none ∧
     processFetchOutcome (FetchOutcome.series []) = none) ∧
    colorOfFetched none sel = "#9CA3AF" ∧
    (∀ values : List (Option ℚ),
      processFetchOutcome (FetchOutcome.series values) =
        if 0 < (values.filterMap id).length
        then some ((values.filterMap id).sum / (values.filterMap id).length)
        else none) ∧
    (∀ (oracle : Oracle) (t : RecomputeTask),
      (∀ c s, oracle c s = none) →
      ∀ p ∈ resolveRecompute oracle t, p.value = none ∧ p.color = "#9CA3AF") := by
  refine ⟨⟨rfl, rfl, rfl, rfl⟩, rfl, ?_, ?_⟩
  · intro values
    by_cases hv : values.length = 0
    · have : values = [] := List.length_eq_zero.mp hv
      subst this
      simp [processFetchOutcome]
    · simp only [processFetchOutcome, if_neg hv]
      by_cases hvalid : 0 < (values.filterMap id).length
      · simp only [gt_iff_lt, if_pos hvalid]
        rw [foldl_add_eq_sum]
        simp
      · simp [if_neg hvalid, hvalid]
  · intro oracle t hnone p hp
    unfold resolveRecompute at hp
    rcases List.mem_map.mp hp with ⟨q, _, rfl⟩
    simp [hnone, colorOfFetched]

/-- Witness for C9: the series `[1, null, 3]` averages to 2 over its 2 valid
samples; a network error is absent; an absent value renders neutral. -/
theorem processFetchOutcome_spec_witness :
    processFetchOutcome (FetchOutcome.series [some 1, none, some 3]) = some 2 ∧
    processFetchOutcome FetchOutcome.networkError = none ∧
    colorOfFetched none "temperature_2m" = "#9CA3AF" := by
  have h := processFetchOutcome_spec "temperature_2m"
  refine ⟨?_, h.1.1, h.2.1⟩
  rw [h.2.2.1 [some 1, none, some 3]]
  norm_num [List.filterMap_cons]

/-! ## Claim theorems: the request that is never sent (C2) -/

/-- C2 evaluation: every call of `fetchWeatherData` returns `null` without
issuing a request — the URL template at page.tsx line 114 references
`clampedLon`, which is declared nowhere (line 109 declares only `clampedLat`),
so evaluating the template throws a `ReferenceError` that the `catch` at line
127 swallows. No longitude clamping is performed, and no clamped latitude is
ever sent either. -/
theorem fetchWeatherData_never_requests (lat lon : ℚ) (outcome : FetchOutcome) :
    fetchWeatherData lat lon outcome = none := rfl

/-! ## Claim theorems: recompute staleness (C1) -/

/-- A committed polygon over the unit square, still neutral. -/
def squarePolygon : Polygon :=
  { id := "polygon-0", coordinates := [(0,0),(0,2),(2,2),(2,0)],
    color := "#9CA3AF", value := none, dataSource := "temperature_2m" }

/-- The initial selection: temperature over a 24-hour window. -/
def selTempDay : Selection := ⟨"temperature_2m", 0, 24⟩

/-- The same variable with a widened analysis range — its change triggers the
first recompute (variable A of the scenario). -/
def selTempWide : Selection := ⟨"temperature_2m", 0, 48⟩

/-- The superseding selection: the humidity variable (variable B). -/
def selHumidity : Selection := ⟨"relative_humidity_2m", 0, 48⟩

/-- A deterministic weather source: temperature queries resolve to 5,
anything else to 50. -/
def demoOracle : Oracle := fun _ sel =>
  if sel.dataSource == "temperature_2m" then some 5 else some 50

/-- Dashboard start state: one committed polygon, temperature selected, no
fetch in flight. -/
def demoStart : DashState := ⟨[squarePolygon], selTempDay, []⟩

/-- The staleness scenario: a recompute is issued for the temperature
selection (range change), the selection is switched to humidity (issuing its
recompute), the humidity recompute resolves, and then the stale temperature
result arrives. -/
def staleTrace : List DashEvent :=
  [DashEvent.setSelection selTempWide,
   DashEvent.setSelection selHumidity,
   DashEvent.taskResolves 1,
   DashEvent.taskResolves 0]

/-- C1 refutation: after the humidity recompute resolves (first three events)
the polygon carries the humidity-derived value 50 and color `#10B981`; when
the stale temperature result then arrives, the code applies it
unconditionally (page.tsx line 168 performs `setPolygons` with no staleness
check), overwriting the polygon with the superseded temperature-derived value
5 and color `#06B6D4`. -/
theorem stale_recompute_overwrites :
    (dashRun demoOracle demoStart (staleTrace.take 3)).polygons.map Polygon.value
      = [some 50] ∧
    (dashRun demoOracle demoStart (staleTrace.take 3)).polygons.map Polygon.color
      = ["#10B981"] ∧
    (dashRun demoOracle demoStart staleTrace).polygons.map Polygon.value
      = [some 5] ∧
    (dashRun demoOracle demoStart staleTrace).polygons.map Polygon.color
      = ["#06B6D4"] ∧
    ("#06B6D4" : String) ≠ "#10B981" :=
  ⟨by decide, by decide, by decide, by decide, by decide⟩

end GeoDash
